import Mathlib

/-!
Shallow embedding of the configuration-persistence (Storage) subsystem of
the etho_sensor firmware (src/accessories/etho_sensor/storage.h,
storage.cpp, structs.h).

The `configuration` struct has four `char[20]` buffers (in declaration
order: location, name, wifi_ssid, wifi_pwd) followed by a `uint16_t`
checksum at offset 80; `sizeof(configuration) = 82` with no padding.
Each buffer is modelled as a `List Nat` of length 20 whose entries are
the raw bytes (the C string is the prefix up to the first 0 byte; bytes
after the terminator are part of the in-memory layout and contribute to
the checksum, exactly as in the source).

Two build-time backend variants exist: ESP8266 (EEPROM_Rotate block
storage, suffix `8266` below) and ESP32 (Preferences key-value store,
suffix `32`).  The vendor EEPROM library is modelled as a durable region
holding the marker byte and the record; `commit` is mediated by a fault
oracle (`Ee → Option Ee`) so that commit failure and silent flash
corruption between write and read-back are expressible — `idealCommit`
is the fault-free instantiation.  The vendor Preferences store is
modelled as a total map from key to stored string bytes plus an optional
stored checksum; its put operations are modelled as always succeeding.
-/

namespace EthoSensor

/-- The `StorageError` enum of storage.h. -/
inductive StorageError where
  | NONE
  | NOT_INITIALIZED
  | WRITE_FAILED
  | READ_FAILED
  | VALIDATION_FAILED
  | COMMIT_FAILED
  | INVALID_FIELD
  deriving DecidableEq, Repr

/-- The `configuration` struct of structs.h: four 20-byte `char` buffers in
declaration order plus a `uint16_t` checksum. -/
structure Config where
  location : List Nat
  name : List Nat
  wifi_ssid : List Nat
  wifi_pwd : List Nat
  checksum : Nat
  deriving DecidableEq, Repr

/-- Well-formedness of a 20-byte buffer: length 20, every entry a byte. -/
def BufWF (b : List Nat) : Prop := b.length = 20 ∧ ∀ x ∈ b, x ≤ 255

/-- Well-formedness of a `configuration` value. -/
def ConfigWF (c : Config) : Prop :=
  BufWF c.location ∧ BufWF c.name ∧ BufWF c.wifi_ssid ∧ BufWF c.wifi_pwd ∧ c.checksum < 65536

instance : DecidablePred BufWF := fun _ => by unfold BufWF; infer_instance

instance : DecidablePred ConfigWF := fun _ => by unfold ConfigWF; infer_instance

/-- The C string stored in a buffer: the bytes before the first 0. -/
def cstr (b : List Nat) : List Nat := b.takeWhile (· ≠ 0)

/-- `strlen` over a buffer. -/
def cstrLen (b : List Nat) : Nat := (cstr b).length

/-- `strcmp(a, b) == 0`: the C strings coincide. -/
def strcmpEq (a b : List Nat) : Bool := cstr a == cstr b

/-- `strlcpy(dst, src, 20)`: copy at most 19 bytes of the source string,
terminate with 0, leave the bytes after the terminator as they were. -/
def strlcpy20 (dst src : List Nat) : List Nat :=
  let s := cstr src
  let n := min s.length 19
  s.take n ++ [0] ++ dst.drop (n + 1)

/-- `calculateChecksum` of storage.cpp: the sum of all `sizeof(configuration)`
raw bytes of the struct — the four buffers in declaration order followed by
the two little-endian bytes of the checksum field — as a `uint16_t`. -/
def calculateChecksum (cfg : Config) : Nat :=
  (cfg.location.sum + cfg.name.sum + cfg.wifi_ssid.sum + cfg.wifi_pwd.sum
    + cfg.checksum % 256 + cfg.checksum / 256) % 65536

/-- All-zero 20-byte buffer. -/
def zeroBuf : List Nat := List.replicate 20 0

/-- The all-zero `configuration` (also used for the uninitialized local in
`updateField`, whose contents are never observed). -/
def zeroConfig : Config := ⟨zeroBuf, zeroBuf, zeroBuf, zeroBuf, 0⟩

/-- Build a 20-byte buffer from a string literal, zero-padded. -/
def strToBuf (s : String) : List Nat :=
  ((s.toList.map Char.toNat).take 19) ++ List.replicate (20 - min s.length 19) 0

/-- A C-string argument (e.g. the `value` parameter of `updateField`):
the byte content with no embedded 0. -/
def strToCStr (s : String) : List Nat := s.toList.map Char.toNat

/-- The durable EEPROM region used by the block-storage backend: the
validity marker byte at EEPROM_START followed by the serialized record. -/
structure Ee where
  marker : Nat
  conf : Config
  deriving DecidableEq, Repr

/-- Commit fault oracle: given the state the write staged, the state the
flash actually holds afterwards (`none` = `commit()` returned false). -/
def CommitOracle := Ee → Option Ee

/-- Fault-free commit: the flash holds exactly what was written. -/
def idealCommit : CommitOracle := fun e => some e

/-- State of the `Storage` class on the ESP8266 (block-storage) build. -/
structure S8 where
  initialized : Bool
  lastError : StorageError
  ee : Ee
  deriving DecidableEq, Repr

/-- `Storage::begin` on the block-storage backend: if already initialized,
return true leaving everything (including `lastError`) untouched; else
`eeprom.begin` (no failure path), set `initialized`, clear the error. -/
def begin8266 (s : S8) : S8 × Bool :=
  if s.initialized then (s, true)
  else ({ s with initialized := true, lastError := StorageError.NONE }, true)

/-- The `success` expression of `saveConfig`'s read-back verification on the
block-storage backend: the read-back marker is 1, the read-back checksum
equals the freshly computed one, and the four strings `strcmp`-equal the
caller's record. -/
def readbackOk (cfg : Config) (ee' : Ee) : Bool :=
  (ee'.marker == 1) && (ee'.conf.checksum == calculateChecksum cfg)
    && strcmpEq cfg.name ee'.conf.name
    && strcmpEq cfg.location ee'.conf.location
    && strcmpEq cfg.wifi_ssid ee'.conf.wifi_ssid
    && strcmpEq cfg.wifi_pwd ee'.conf.wifi_pwd

/-- `Storage::saveConfig` on the block-storage backend.  Computes the
checksum over the caller's record as given (the checksum field is NOT
zeroed first), stages marker-then-data, commits through the oracle, then
reads back and verifies marker, checksum and the four strings. -/
def saveConfig8266 (s : S8) (cfg : Config) (commit : CommitOracle) : S8 × Bool :=
  if !s.initialized then
    ({ s with lastError := StorageError.NOT_INITIALIZED }, false)
  else
    let c := calculateChecksum cfg
    let cfgw : Config := { cfg with checksum := c }
    match commit ⟨1, cfgw⟩ with
    | none => ({ s with lastError := StorageError.COMMIT_FAILED }, false)
    | some ee' =>
      if readbackOk cfg ee' then
        ({ s with ee := ee', lastError := StorageError.NONE }, true)
      else ({ s with ee := ee', lastError := StorageError.WRITE_FAILED }, false)

/-- `Storage::loadConfig` on the block-storage backend.  Checks the marker,
overwrites the caller's record with the stored bytes, zeroes its checksum
field (never restoring it), recomputes and compares, then checks that both
WiFi strings are non-empty. -/
def loadConfig8266 (s : S8) (cfg : Config) : S8 × Config × Bool :=
  if !s.initialized then
    ({ s with lastError := StorageError.NOT_INITIALIZED }, cfg, false)
  else if s.ee.marker ≠ 1 then
    ({ s with lastError := StorageError.VALIDATION_FAILED }, cfg, false)
  else
    let c1 := s.ee.conf
    let loaded := c1.checksum
    let c2 : Config := { c1 with checksum := 0 }
    let calcd := calculateChecksum c2
    if loaded ≠ calcd then
      ({ s with lastError := StorageError.VALIDATION_FAILED }, c2, false)
    else if cstrLen c2.wifi_ssid = 0 ∨ cstrLen c2.wifi_pwd = 0 then
      ({ s with lastError := StorageError.VALIDATION_FAILED }, c2, false)
    else
      ({ s with lastError := StorageError.NONE }, c2, true)

/-- `Storage::updateField` on the block-storage backend: read-modify-write.
Loads the full record (failure propagates the load error), switches on the
field name (unknown name → INVALID_FIELD), saves, then unconditionally sets
`lastError = NONE` before returning the save result. -/
def updateField8266 (s : S8) (field : String) (value : List Nat)
    (commit : CommitOracle) : S8 × Bool :=
  if !s.initialized then
    ({ s with lastError := StorageError.NOT_INITIALIZED }, false)
  else
    match loadConfig8266 s zeroConfig with
    | (s1, _, false) => (s1, false)
    | (s1, cfg, true) =>
      if field = "name" then
        let r := saveConfig8266 s1 { cfg with name := strlcpy20 cfg.name value } commit
        ({ r.1 with lastError := StorageError.NONE }, r.2)
      else if field = "location" then
        let r := saveConfig8266 s1 { cfg with location := strlcpy20 cfg.location value } commit
        ({ r.1 with lastError := StorageError.NONE }, r.2)
      else if field = "wifi_ssid" then
        let r := saveConfig8266 s1 { cfg with wifi_ssid := strlcpy20 cfg.wifi_ssid value } commit
        ({ r.1 with lastError := StorageError.NONE }, r.2)
      else if field = "wifi_pwd" then
        let r := saveConfig8266 s1 { cfg with wifi_pwd := strlcpy20 cfg.wifi_pwd value } commit
        ({ r.1 with lastError := StorageError.NONE }, r.2)
      else
        ({ s1 with lastError := StorageError.INVALID_FIELD }, false)

/-- `Storage::clear` on the block-storage backend: clear the marker byte and
return the commit result; `lastError` is not touched on either outcome. -/
def clear8266 (s : S8) (commitOk : Bool) : S8 × Bool :=
  if !s.initialized then
    ({ s with lastError := StorageError.NOT_INITIALIZED }, false)
  else if commitOk then ({ s with ee := { s.ee with marker := 0 } }, true)
  else (s, false)

/-- `Storage::getLastError`. -/
def getLastError8266 (s : S8) : StorageError := s.lastError

/-- The vendor `Preferences` namespace as seen through the calls the source
makes: a total map from string key to stored string bytes (`getString`
defaults to the empty string, modelled as `[]`) plus the stored `checksum`
unsigned short (`getUShort` defaults to 0). -/
structure Prefs where
  strs : String → List Nat
  checksum : Option Nat

/-- An erased / freshly created namespace: every key absent. -/
def emptyPrefs : Prefs := ⟨fun _ => [], none⟩

/-- State of the `Storage` class on the ESP32 (key-value) build. -/
structure S32 where
  initialized : Bool
  lastError : StorageError
  prefs : Prefs

/-- `Storage::begin` on the key-value backend: if already initialized,
return true leaving `lastError` untouched; else `preferences.begin`
(outcome supplied by `openOk`), failure setting NOT_INITIALIZED. -/
def begin32 (s : S32) (openOk : Bool) : S32 × Bool :=
  if s.initialized then (s, true)
  else if openOk then
    ({ s with initialized := true, lastError := StorageError.NONE }, true)
  else
    ({ s with initialized := false, lastError := StorageError.NOT_INITIALIZED }, false)

/-- Write one string key of a `Prefs` map. -/
def putStr (p : Prefs) (k : String) (v : List Nat) : Prefs :=
  { p with strs := fun k' => if k' = k then v else p.strs k' }

/-- `Storage::saveConfig` on the key-value backend: put the four strings and
the checksum computed over the caller's record as given (the checksum field
is NOT zeroed first); the puts are modelled as always succeeding. -/
def saveConfig32 (s : S32) (cfg : Config) : S32 × Bool :=
  if !s.initialized then
    ({ s with lastError := StorageError.NOT_INITIALIZED }, false)
  else
    let c := calculateChecksum cfg
    let p1 := putStr s.prefs "name" (cstr cfg.name)
    let p2 := putStr p1 "location" (cstr cfg.location)
    let p3 := putStr p2 "wifi_ssid" (cstr cfg.wifi_ssid)
    let p4 := putStr p3 "wifi_pwd" (cstr cfg.wifi_pwd)
    ({ s with prefs := { p4 with checksum := some c }, lastError := StorageError.NONE }, true)

/-- `Storage::loadConfig` on the key-value backend: fail if the stored name
is the empty string; otherwise `strlcpy` each stored string over the
caller's buffers, read the stored checksum, zero the checksum field (never
restoring it), recompute and compare, then check the WiFi strings. -/
def loadConfig32 (s : S32) (cfg : Config) : S32 × Config × Bool :=
  if !s.initialized then
    ({ s with lastError := StorageError.NOT_INITIALIZED }, cfg, false)
  else
    let nm := s.prefs.strs "name"
    if nm.length = 0 then
      ({ s with lastError := StorageError.VALIDATION_FAILED }, cfg, false)
    else
      let c1 : Config :=
        { location := strlcpy20 cfg.location (s.prefs.strs "location")
          name := strlcpy20 cfg.name nm
          wifi_ssid := strlcpy20 cfg.wifi_ssid (s.prefs.strs "wifi_ssid")
          wifi_pwd := strlcpy20 cfg.wifi_pwd (s.prefs.strs "wifi_pwd")
          checksum := s.prefs.checksum.getD 0 }
      let loaded := c1.checksum
      let c2 : Config := { c1 with checksum := 0 }
      let calcd := calculateChecksum c2
      if loaded ≠ calcd then
        ({ s with lastError := StorageError.VALIDATION_FAILED }, c2, false)
      else if cstrLen c2.wifi_ssid = 0 ∨ cstrLen c2.wifi_pwd = 0 then
        ({ s with lastError := StorageError.VALIDATION_FAILED }, c2, false)
      else
        ({ s with lastError := StorageError.NONE }, c2, true)

/-- `Storage::updateField` on the key-value backend: a direct
`preferences.putString(field, value)` with NO field-name validation
(modelled as always succeeding), then `lastError = NONE` and true. -/
def updateField32 (s : S32) (field : String) (value : List Nat) : S32 × Bool :=
  if !s.initialized then
    ({ s with lastError := StorageError.NOT_INITIALIZED }, false)
  else
    ({ s with prefs := putStr s.prefs field (cstr value), lastError := StorageError.NONE }, true)

/-- `Storage::clear` on the key-value backend: erase the namespace and
return the result (modelled as succeeding); `lastError` is not touched. -/
def clear32 (s : S32) : S32 × Bool :=
  if !s.initialized then
    ({ s with lastError := StorageError.NOT_INITIALIZED }, false)
  else
    ({ s with prefs := emptyPrefs }, true)

/-- `Storage::getLastError`. -/
def getLastError32 (s : S32) : StorageError := s.lastError

/-! Concrete fixtures used by the counterexamples and witnesses. -/

/-- The record of the spec's concrete scenario, with a zero checksum field. -/
def sensorCfg : Config :=
  ⟨strToBuf "lab", strToBuf "sensor1", strToBuf "NET", strToBuf "pw1234", 0⟩

/-- The same record with a nonzero (stale) checksum field as a caller might
leave it. -/
def sensorCfg5 : Config := { sensorCfg with checksum := 5 }

/-- A freshly powered-on block-storage device: not initialized, no error,
erased flash (marker 0, all record bytes 0). -/
def boot8 : S8 := ⟨false, StorageError.NONE, ⟨0, zeroConfig⟩⟩

/-- An initialized block-storage state holding a validly saved `sensorCfg`. -/
def saved8 : S8 := (saveConfig8266 ⟨true, StorageError.NONE, ⟨0, zeroConfig⟩⟩ sensorCfg idealCommit).1

/-- An initialized block-storage state carrying a stale `INVALID_FIELD`
error (as left behind by a failed `updateField`). -/
def stale8 : S8 := ⟨true, StorageError.INVALID_FIELD, saved8.ee⟩

/-- An initialized block-storage state whose stored record fails the
checksum comparison (stored checksum 9999, recomputed value different). -/
def corrupt8 : S8 := ⟨true, StorageError.NONE, ⟨1, { sensorCfg with checksum := 9999 }⟩⟩

/-- A stored record with an empty name, non-empty WiFi fields and a
matching checksum (65 + 66 = 131). -/
def noNameConf : Config := ⟨zeroBuf, zeroBuf, strToBuf "A", strToBuf "B", 131⟩

/-- An initialized block-storage state holding `noNameConf` under a set
validity marker. -/
def noName8 : S8 := ⟨true, StorageError.NONE, ⟨1, noNameConf⟩⟩

/-- A distinct caller-side record, used to observe mutation of the
out-parameter. -/
def otherCfg : Config :=
  ⟨strToBuf "office", strToBuf "other", strToBuf "OTHERNET", strToBuf "secret", 0⟩

/-- An initialized key-value-backend state holding a validly saved
`sensorCfg`. -/
def saved32 : S32 := (saveConfig32 ⟨true, StorageError.NONE, emptyPrefs⟩ sensorCfg).1

/-- A freshly powered-on key-value device before `begin`. -/
def boot32 : S32 := ⟨false, StorageError.NONE, emptyPrefs⟩

/-! Helper lemmas shared by the claim theorems. -/

theorem bufSum_le {b : List Nat} (h : BufWF b) : b.sum ≤ 5100 := by
  have h2 := List.sum_le_card_nsmul b 255 h.2
  rw [h.1] at h2
  simpa using h2

theorem sum_pos_of_cstrLen_ne {b : List Nat} (h : cstrLen b ≠ 0) : 0 < b.sum := by
  have hne : cstr b ≠ [] := fun hnil => h (by simp [cstrLen, hnil])
  obtain ⟨x, hx⟩ := List.exists_mem_of_ne_nil _ hne
  have hxb : x ∈ b := (List.takeWhile_prefix _).sublist.subset hx
  have hx0 : x ≠ 0 := by
    have hpx := List.mem_takeWhile_imp hx
    simpa using hpx
  exact Nat.lt_of_lt_of_le (Nat.pos_of_ne_zero hx0) (List.le_sum_of_mem hxb)

theorem calculateChecksum_of_zero {cfg : Config} (hWF : ConfigWF cfg)
    (h0 : cfg.checksum = 0) :
    calculateChecksum cfg =
      cfg.location.sum + cfg.name.sum + cfg.wifi_ssid.sum + cfg.wifi_pwd.sum := by
  have hl := bufSum_le hWF.1
  have hn := bufSum_le hWF.2.1
  have hs := bufSum_le hWF.2.2.1
  have hp := bufSum_le hWF.2.2.2.1
  unfold calculateChecksum
  rw [h0]
  simp only [Nat.zero_mod, Nat.zero_div, Nat.add_zero]
  exact Nat.mod_eq_of_lt (by omega)

theorem calculateChecksum_pos {cfg : Config} (hWF : ConfigWF cfg)
    (h0 : cfg.checksum = 0) (hs : cstrLen cfg.wifi_ssid ≠ 0) :
    calculateChecksum cfg ≠ 0 := by
  rw [calculateChecksum_of_zero hWF h0]
  have hpos := sum_pos_of_cstrLen_ne hs
  omega

theorem ck_zero_eq (c : Config) (h0 : c.checksum = 0) :
    (⟨c.location, c.name, c.wifi_ssid, c.wifi_pwd, 0⟩ : Config) = c := by
  cases c
  simp_all

theorem saveConfig8266_ideal (s : S8) (cfg : Config) (h : s.initialized = true) :
    saveConfig8266 s cfg idealCommit =
      (⟨true, StorageError.NONE,
          ⟨1, ⟨cfg.location, cfg.name, cfg.wifi_ssid, cfg.wifi_pwd, calculateChecksum cfg⟩⟩⟩,
        true) := by
  simp [saveConfig8266, h, idealCommit, readbackOk, strcmpEq]

theorem loadConfig8266_ok (s : S8) (out0 : Config) (h : s.initialized = true)
    (hm : s.ee.marker = 1)
    (hck : s.ee.conf.checksum = calculateChecksum
      ⟨s.ee.conf.location, s.ee.conf.name, s.ee.conf.wifi_ssid, s.ee.conf.wifi_pwd, 0⟩)
    (hs : cstrLen s.ee.conf.wifi_ssid ≠ 0) (hp : cstrLen s.ee.conf.wifi_pwd ≠ 0) :
    loadConfig8266 s out0 =
      (⟨true, StorageError.NONE, s.ee⟩,
        ⟨s.ee.conf.location, s.ee.conf.name, s.ee.conf.wifi_ssid, s.ee.conf.wifi_pwd, 0⟩,
        true) := by
  simp [loadConfig8266, h, hm, hck, hs, hp]

theorem loadConfig8266_ck_fail (s : S8) (out0 : Config) (h : s.initialized = true)
    (hm : s.ee.marker = 1)
    (hck : s.ee.conf.checksum ≠ calculateChecksum
      ⟨s.ee.conf.location, s.ee.conf.name, s.ee.conf.wifi_ssid, s.ee.conf.wifi_pwd, 0⟩) :
    loadConfig8266 s out0 =
      (⟨true, StorageError.VALIDATION_FAILED, s.ee⟩,
        ⟨s.ee.conf.location, s.ee.conf.name, s.ee.conf.wifi_ssid, s.ee.conf.wifi_pwd, 0⟩,
        false) := by
  simp [loadConfig8266, h, hm, hck]

/-- Claim C1 (counterexample): the record of the spec's concrete scenario
carrying a stale nonzero checksum field (5) is valid in the claim's sense
(non-empty wifi_ssid and wifi_pwd), yet `begin(); saveConfig(R);
loadConfig(out)` has the save succeed and the load FAIL with
VALIDATION_FAILED — the round-trip identity does not hold as stated,
because `saveConfig` computes the embedded checksum without zeroing the
caller's checksum field while `loadConfig` recomputes it zeroed. -/
theorem C1_counterexample :
    cstrLen sensorCfg5.wifi_ssid ≠ 0 ∧ cstrLen sensorCfg5.wifi_pwd ≠ 0 ∧
    (saveConfig8266 (begin8266 boot8).1 sensorCfg5 idealCommit).2 = true ∧
    (loadConfig8266 (saveConfig8266 (begin8266 boot8).1 sensorCfg5 idealCommit).1
        zeroConfig).2.2 = false ∧
    (loadConfig8266 (saveConfig8266 (begin8266 boot8).1 sensorCfg5 idealCommit).1
        zeroConfig).1.lastError = StorageError.VALIDATION_FAILED := by
  decide

/-- Claim C1 (amended): on the block-storage backend with a fault-free
commit, for every well-formed record R with non-empty wifi_ssid and
wifi_pwd WHOSE CHECKSUM FIELD IS ZERO, the sequence `begin(); saveConfig(R);
loadConfig(out)` succeeds and out equals R field for field (out's checksum
field is zero — `loadConfig` zeroes it and never restores it); the checksum
embedded in the persisted record is nonzero. -/
theorem C1_round_trip (R out0 : Config) (ee0 : Ee) (e0 : StorageError)
    (hWF : ConfigWF R) (h0 : R.checksum = 0)
    (hs : cstrLen R.wifi_ssid ≠ 0) (hp : cstrLen R.wifi_pwd ≠ 0) :
    (saveConfig8266 (begin8266 ⟨false, e0, ee0⟩).1 R idealCommit).2 = true ∧
    (loadConfig8266 (saveConfig8266 (begin8266 ⟨false, e0, ee0⟩).1 R idealCommit).1
        out0).2.2 = true ∧
    (loadConfig8266 (saveConfig8266 (begin8266 ⟨false, e0, ee0⟩).1 R idealCommit).1
        out0).2.1 = R ∧
    (saveConfig8266 (begin8266 ⟨false, e0, ee0⟩).1 R idealCommit).1.ee.conf.checksum
      ≠ 0 := by
  have hb : (begin8266 ⟨false, e0, ee0⟩).1 = ⟨true, StorageError.NONE, ee0⟩ := by
    simp [begin8266]
  have hsave := saveConfig8266_ideal ⟨true, StorageError.NONE, ee0⟩ R rfl
  have hload := loadConfig8266_ok
    ⟨true, StorageError.NONE,
      ⟨1, ⟨R.location, R.name, R.wifi_ssid, R.wifi_pwd, calculateChecksum R⟩⟩⟩ out0
    rfl rfl (by rw [ck_zero_eq R h0]) hs hp
  simp only [hb, hsave, hload]
  exact ⟨trivial, trivial, ck_zero_eq R h0, calculateChecksum_pos hWF h0 hs⟩

/-- Claim C1 (witness): the amended round-trip theorem applied to the
spec's concrete scenario record. -/
theorem C1_witness :
    (ConfigWF sensorCfg ∧ sensorCfg.checksum = 0 ∧
      cstrLen sensorCfg.wifi_ssid ≠ 0 ∧ cstrLen sensorCfg.wifi_pwd ≠ 0) ∧
    ((saveConfig8266 (begin8266 ⟨false, StorageError.NONE, ⟨0, zeroConfig⟩⟩).1
        sensorCfg idealCommit).2 = true ∧
      (loadConfig8266 (saveConfig8266
          (begin8266 ⟨false, StorageError.NONE, ⟨0, zeroConfig⟩⟩).1
          sensorCfg idealCommit).1 zeroConfig).2.2 = true ∧
      (loadConfig8266 (saveConfig8266
          (begin8266 ⟨false, StorageError.NONE, ⟨0, zeroConfig⟩⟩).1
          sensorCfg idealCommit).1 zeroConfig).2.1 = sensorCfg ∧
      (saveConfig8266 (begin8266 ⟨false, StorageError.NONE, ⟨0, zeroConfig⟩⟩).1
          sensorCfg idealCommit).1.ee.conf.checksum ≠ 0) :=
  ⟨⟨by decide, by decide, by decide, by decide⟩,
    C1_round_trip sensorCfg zeroConfig ⟨0, zeroConfig⟩ StorageError.NONE
      (by decide) (by decide) (by decide) (by decide)⟩

/-- Claim C2 (code_bug demonstration): the checksum `saveConfig` embeds is
`calculateChecksum` of the caller's record AS GIVEN — the checksum field is
not treated as zero — while `loadConfig` recomputes it with the field
zeroed; for the scenario record with checksum field 5 the two values
differ, so the freshly saved record FAILS loadConfig's checksum comparison.
Moreover after validation the checksum field is not restored: loading a
correctly saved record yields checksum field 0 although the stored value is
nonzero. -/
theorem C2_checksum_not_zeroed :
    (saveConfig8266 (begin8266 boot8).1 sensorCfg5 idealCommit).1.ee.conf.checksum
      = calculateChecksum sensorCfg5 ∧
    calculateChecksum sensorCfg5
      ≠ calculateChecksum ⟨sensorCfg5.location, sensorCfg5.name,
          sensorCfg5.wifi_ssid, sensorCfg5.wifi_pwd, 0⟩ ∧
    (loadConfig8266 (saveConfig8266 (begin8266 boot8).1 sensorCfg5 idealCommit).1
        zeroConfig).2.2 = false ∧
    (loadConfig8266 (saveConfig8266 (begin8266 boot8).1 sensorCfg5 idealCommit).1
        zeroConfig).1.lastError = StorageError.VALIDATION_FAILED ∧
    (loadConfig8266 saved8 zeroConfig).2.2 = true ∧
    (loadConfig8266 saved8 zeroConfig).2.1.checksum = 0 ∧
    saved8.ee.conf.checksum ≠ 0 := by
  decide

theorem loadConfig8266_preserves (s : S8) (cfg : Config) :
    (loadConfig8266 s cfg).1.ee = s.ee ∧
    (loadConfig8266 s cfg).1.initialized = s.initialized := by
  unfold loadConfig8266
  split
  · exact ⟨rfl, rfl⟩
  · split
    · exact ⟨rfl, rfl⟩
    · dsimp only
      split
      · exact ⟨rfl, rfl⟩
      · split
        · exact ⟨rfl, rfl⟩
        · exact ⟨rfl, rfl⟩

/-- Claim C3 (counterexample): on the key-value backend, `updateField` with
the unknown field name "bogus_field" does NOT return false with
InvalidField — it performs no field-name validation, writes the key and
returns true with `lastError = NONE`; and on the block-storage backend
with erased storage the same call fails with VALIDATION_FAILED (the load
error), not INVALID_FIELD. -/
theorem C3_counterexample :
    (updateField32 saved32 "bogus_field" (strToCStr "x")).2 = true ∧
    (updateField32 saved32 "bogus_field" (strToCStr "x")).1.lastError
      = StorageError.NONE ∧
    (updateField8266 ⟨true, StorageError.NONE, ⟨0, zeroConfig⟩⟩ "bogus_field"
        (strToCStr "x") idealCommit).2 = false ∧
    (updateField8266 ⟨true, StorageError.NONE, ⟨0, zeroConfig⟩⟩ "bogus_field"
        (strToCStr "x") idealCommit).1.lastError = StorageError.VALIDATION_FAILED := by
  decide

/-- Claim C3 (amended): on the block-storage backend, when a valid record is
loadable, `updateField` with a field name outside {name, location,
wifi_ssid, wifi_pwd} returns false, sets lastError to InvalidField and
leaves the persisted region untouched; on the key-value backend the call is
passed straight through to the preference store — it returns true and
writes the given key, leaving the four record string keys and the checksum
key unchanged. -/
theorem C3_invalid_field (s : S8) (s32 : S32) (field : String)
    (value value32 : List Nat) (commit : CommitOracle)
    (h : s.initialized = true) (hload : (loadConfig8266 s zeroConfig).2.2 = true)
    (h32 : s32.initialized = true)
    (hf1 : field ≠ "name") (hf2 : field ≠ "location")
    (hf3 : field ≠ "wifi_ssid") (hf4 : field ≠ "wifi_pwd") :
    (updateField8266 s field value commit).2 = false ∧
    (updateField8266 s field value commit).1.lastError = StorageError.INVALID_FIELD ∧
    (updateField8266 s field value commit).1.ee = s.ee ∧
    (updateField32 s32 field value32).2 = true ∧
    (updateField32 s32 field value32).1.prefs.strs "name" = s32.prefs.strs "name" ∧
    (updateField32 s32 field value32).1.prefs.strs "location"
      = s32.prefs.strs "location" ∧
    (updateField32 s32 field value32).1.prefs.strs "wifi_ssid"
      = s32.prefs.strs "wifi_ssid" ∧
    (updateField32 s32 field value32).1.prefs.strs "wifi_pwd"
      = s32.prefs.strs "wifi_pwd" ∧
    (updateField32 s32 field value32).1.prefs.checksum = s32.prefs.checksum ∧
    (updateField32 s32 field value32).1.prefs.strs field = cstr value32 := by
  have hee := (loadConfig8266_preserves s zeroConfig).1
  rcases hres : loadConfig8266 s zeroConfig with ⟨s1, cfg1, b⟩
  rw [hres] at hload hee
  have hb : b = true := hload
  have hee1 : s1.ee = s.ee := hee
  subst hb
  have h8 : updateField8266 s field value commit =
      (⟨s1.initialized, StorageError.INVALID_FIELD, s1.ee⟩, false) := by
    unfold updateField8266
    rw [if_neg (by simp [h]), hres]
    simp [hf1, hf2, hf3, hf4]
  have h32r : updateField32 s32 field value32 =
      (⟨s32.initialized, StorageError.NONE, putStr s32.prefs field (cstr value32)⟩,
        true) := by
    unfold updateField32
    rw [if_neg (by simp [h32])]
  rw [h8, h32r]
  refine ⟨rfl, rfl, hee1, rfl, ?_, ?_, ?_, ?_, rfl, ?_⟩
  · exact if_neg (fun hh => hf1 hh.symm)
  · exact if_neg (fun hh => hf2 hh.symm)
  · exact if_neg (fun hh => hf3 hh.symm)
  · exact if_neg (fun hh => hf4 hh.symm)
  · exact if_pos rfl

/-- Claim C3 (witness): the amended theorem applied to initialized stores
holding the saved scenario record and the field name "bogus_field". -/
theorem C3_witness :
    ((loadConfig8266 saved8 zeroConfig).2.2 = true ∧ saved8.initialized = true ∧
      saved32.initialized = true) ∧
    ((updateField8266 saved8 "bogus_field" (strToCStr "x") idealCommit).2 = false ∧
      (updateField8266 saved8 "bogus_field" (strToCStr "x") idealCommit).1.lastError
        = StorageError.INVALID_FIELD ∧
      (updateField8266 saved8 "bogus_field" (strToCStr "x") idealCommit).1.ee
        = saved8.ee ∧
      (updateField32 saved32 "bogus_field" (strToCStr "x")).2 = true ∧
      (updateField32 saved32 "bogus_field" (strToCStr "x")).1.prefs.strs "name"
        = saved32.prefs.strs "name" ∧
      (updateField32 saved32 "bogus_field" (strToCStr "x")).1.prefs.strs "location"
        = saved32.prefs.strs "location" ∧
      (updateField32 saved32 "bogus_field" (strToCStr "x")).1.prefs.strs "wifi_ssid"
        = saved32.prefs.strs "wifi_ssid" ∧
      (updateField32 saved32 "bogus_field" (strToCStr "x")).1.prefs.strs "wifi_pwd"
        = saved32.prefs.strs "wifi_pwd" ∧
      (updateField32 saved32 "bogus_field" (strToCStr "x")).1.prefs.checksum
        = saved32.prefs.checksum ∧
      (updateField32 saved32 "bogus_field" (strToCStr "x")).1.prefs.strs "bogus_field"
        = cstr (strToCStr "x")) :=
  ⟨⟨by decide, by decide, by decide⟩,
    C3_invalid_field saved8 saved32 "bogus_field" (strToCStr "x") (strToCStr "x")
      idealCommit (by decide) (by decide) (by decide)
      (by decide) (by decide) (by decide) (by decide)⟩

theorem loadConfig8266_false_err (s : S8) (cfg : Config) :
    (loadConfig8266 s cfg).2.2 = false →
    (loadConfig8266 s cfg).1.lastError ≠ StorageError.NONE := by
  unfold loadConfig8266
  split
  · intro _; simp
  · split
    · intro _; simp
    · dsimp only
      split
      · intro _; simp
      · split
        · intro _; simp
        · intro hcon; simp at hcon

/-- Claim C4 (counterexample): a succeeding operation can leave a stale
non-None error reported — `begin` on an already-initialized store returns
true without touching lastError (here still INVALID_FIELD), and `clear`
never writes lastError on success; moreover a failing `clear` (commit
failure) returns false while getLastError still reports None. -/
theorem C4_counterexample :
    (begin8266 stale8).2 = true ∧
    getLastError8266 (begin8266 stale8).1 = StorageError.INVALID_FIELD ∧
    (clear8266 stale8 true).2 = true ∧
    getLastError8266 (clear8266 stale8 true).1 = StorageError.INVALID_FIELD ∧
    (clear8266 saved8 false).2 = false ∧
    getLastError8266 (clear8266 saved8 false).1 = StorageError.NONE := by
  decide

/-- Claim C4 (amended): the returns-false-iff-getLastError-is-non-None
property holds for saveConfig and loadConfig on both backends in every
state (any commit outcome on the block backend), and for updateField on
both backends when the backend write succeeds (key-value writes are
modelled as succeeding; the block variant is taken with a fault-free
commit); it does NOT hold for `begin` on an already-initialized store nor
for `clear`, which never write lastError on their success/failure paths. -/
theorem C4_error_iff (s : S8) (s32 : S32) (cfg cfg32 : Config) (field f32 : String)
    (value v32 : List Nat) (commit : CommitOracle) :
    ((saveConfig8266 s cfg commit).2 = false ↔
      getLastError8266 (saveConfig8266 s cfg commit).1 ≠ StorageError.NONE) ∧
    ((loadConfig8266 s cfg).2.2 = false ↔
      getLastError8266 (loadConfig8266 s cfg).1 ≠ StorageError.NONE) ∧
    ((updateField8266 s field value idealCommit).2 = false ↔
      getLastError8266 (updateField8266 s field value idealCommit).1
        ≠ StorageError.NONE) ∧
    ((saveConfig32 s32 cfg32).2 = false ↔
      getLastError32 (saveConfig32 s32 cfg32).1 ≠ StorageError.NONE) ∧
    ((loadConfig32 s32 cfg32).2.2 = false ↔
      getLastError32 (loadConfig32 s32 cfg32).1 ≠ StorageError.NONE) ∧
    ((updateField32 s32 f32 v32).2 = false ↔
      getLastError32 (updateField32 s32 f32 v32).1 ≠ StorageError.NONE) := by
  refine ⟨?_, ?_, ?_, ?_, ?_, ?_⟩
  · unfold saveConfig8266 getLastError8266
    split
    · simp
    · dsimp only
      split
      · simp
      · split
        · simp
        · simp
  · unfold loadConfig8266 getLastError8266
    split
    · simp
    · split
      · simp
      · dsimp only
        split
        · simp
        · split
          · simp
          · simp
  · unfold updateField8266
    split
    · simp [getLastError8266]
    · rename_i hinit
      have hini : s.initialized = true := by
        revert hinit; cases s.initialized <;> simp
      have hpres := (loadConfig8266_preserves s zeroConfig).2
      have herr := loadConfig8266_false_err s zeroConfig
      rcases hres : loadConfig8266 s zeroConfig with ⟨s1, cfg1, b⟩
      rw [hres] at hpres herr
      have hini1 : s1.initialized = true := by rw [← hini]; exact hpres
      cases b with
      | false =>
        have h1 : s1.lastError ≠ StorageError.NONE := herr rfl
        simpa [getLastError8266] using h1
      | true =>
        dsimp only
        split
        · rw [saveConfig8266_ideal s1 _ hini1]
          simp [getLastError8266]
        · split
          · rw [saveConfig8266_ideal s1 _ hini1]
            simp [getLastError8266]
          · split
            · rw [saveConfig8266_ideal s1 _ hini1]
              simp [getLastError8266]
            · split
              · rw [saveConfig8266_ideal s1 _ hini1]
                simp [getLastError8266]
              · simp [getLastError8266]
  · unfold saveConfig32 getLastError32
    split
    · simp
    · simp
  · unfold loadConfig32 getLastError32
    split
    · simp
    · dsimp only
      split
      · simp
      · split
        · simp
        · split
          · simp
          · simp
  · unfold updateField32 getLastError32
    split
    · simp
    · simp

/-- Claim C5 (counterexample): with a stored blob whose checksum validation
fails (marker set, stored checksum 9999 against a different recomputed
value), loadConfig returns false with VALIDATION_FAILED — but the caller's
outRecord does NOT hold the same bytes afterwards: `eeprom.get` has
overwritten it before the checksum comparison. -/
theorem C5_counterexample :
    (loadConfig8266 corrupt8 otherCfg).2.2 = false ∧
    (loadConfig8266 corrupt8 otherCfg).1.lastError = StorageError.VALIDATION_FAILED ∧
    (loadConfig8266 corrupt8 otherCfg).2.1 ≠ otherCfg := by
  decide

/-- Claim C5 (amended): on the block-storage backend, for every stored blob
whose checksum validation fails, loadConfig sets ValidationFailed and
returns false, but the out-parameter is overwritten: it comes back holding
the stored record's bytes with the checksum field zeroed (the read into the
out-parameter happens before the checksum comparison). -/
theorem C5_load_fail_frame (s : S8) (out0 : Config) (h : s.initialized = true)
    (hm : s.ee.marker = 1)
    (hck : s.ee.conf.checksum ≠ calculateChecksum
      ⟨s.ee.conf.location, s.ee.conf.name, s.ee.conf.wifi_ssid, s.ee.conf.wifi_pwd, 0⟩) :
    (loadConfig8266 s out0).2.2 = false ∧
    (loadConfig8266 s out0).1.lastError = StorageError.VALIDATION_FAILED ∧
    (loadConfig8266 s out0).2.1 =
      ⟨s.ee.conf.location, s.ee.conf.name, s.ee.conf.wifi_ssid, s.ee.conf.wifi_pwd, 0⟩ := by
  have hl := loadConfig8266_ck_fail s out0 h hm hck
  refine ⟨?_, ?_, ?_⟩ <;> simp [hl]

/-- Claim C5 (witness): the amended theorem applied to the concrete
corrupted store and a distinct caller record. -/
theorem C5_witness :
    (corrupt8.initialized = true ∧ corrupt8.ee.marker = 1 ∧
      corrupt8.ee.conf.checksum ≠ calculateChecksum
        ⟨corrupt8.ee.conf.location, corrupt8.ee.conf.name, corrupt8.ee.conf.wifi_ssid,
          corrupt8.ee.conf.wifi_pwd, 0⟩) ∧
    ((loadConfig8266 corrupt8 otherCfg).2.2 = false ∧
      (loadConfig8266 corrupt8 otherCfg).1.lastError = StorageError.VALIDATION_FAILED ∧
      (loadConfig8266 corrupt8 otherCfg).2.1 =
        ⟨corrupt8.ee.conf.location, corrupt8.ee.conf.name, corrupt8.ee.conf.wifi_ssid,
          corrupt8.ee.conf.wifi_pwd, 0⟩) :=
  ⟨⟨by decide, by decide, by decide⟩,
    C5_load_fail_frame corrupt8 otherCfg (by decide) (by decide) (by decide)⟩

/-- Claim C6 (confirmed): with every persisted byte zero, loadConfig fails
with VALIDATION_FAILED on both backends (block storage: the marker byte is
0; key-value: the name key is absent/empty).  The final conjuncts show the
double gate the claim describes: an all-zero record whose validity marker
IS set passes the checksum comparison (stored 0 equals recomputed 0) and is
still rejected with VALIDATION_FAILED, by the non-empty-WiFi-field gate. -/
theorem C6_erased_rejected (s : S8) (out0 : Config) (s32 : S32) (out32 : Config)
    (h8 : s.initialized = true) (hz : s.ee = ⟨0, zeroConfig⟩)
    (h32 : s32.initialized = true) (hp : s32.prefs = emptyPrefs) :
    (loadConfig8266 s out0).2.2 = false ∧
    (loadConfig8266 s out0).1.lastError = StorageError.VALIDATION_FAILED ∧
    (loadConfig32 s32 out32).2.2 = false ∧
    (loadConfig32 s32 out32).1.lastError = StorageError.VALIDATION_FAILED ∧
    zeroConfig.checksum = calculateChecksum zeroConfig ∧
    (loadConfig8266 ⟨true, StorageError.NONE, ⟨1, zeroConfig⟩⟩ zeroConfig).2.2 = false ∧
    (loadConfig8266 ⟨true, StorageError.NONE, ⟨1, zeroConfig⟩⟩ zeroConfig).1.lastError
      = StorageError.VALIDATION_FAILED := by
  refine ⟨?_, ?_, ?_, ?_, by decide, by decide, by decide⟩
  · simp [loadConfig8266, h8, hz]
  · simp [loadConfig8266, h8, hz]
  · simp [loadConfig32, h32, hp, emptyPrefs]
  · simp [loadConfig32, h32, hp, emptyPrefs]

/-- Claim C6 (witness): the theorem applied to concrete erased stores. -/
theorem C6_witness :
    ((⟨true, StorageError.NONE, ⟨0, zeroConfig⟩⟩ : S8).initialized = true ∧
      (⟨true, StorageError.NONE, ⟨0, zeroConfig⟩⟩ : S8).ee = ⟨0, zeroConfig⟩ ∧
      (⟨true, StorageError.NONE, emptyPrefs⟩ : S32).initialized = true) ∧
    ((loadConfig8266 ⟨true, StorageError.NONE, ⟨0, zeroConfig⟩⟩ otherCfg).2.2 = false ∧
      (loadConfig8266 ⟨true, StorageError.NONE, ⟨0, zeroConfig⟩⟩ otherCfg).1.lastError
        = StorageError.VALIDATION_FAILED ∧
      (loadConfig32 ⟨true, StorageError.NONE, emptyPrefs⟩ otherCfg).2.2 = false ∧
      (loadConfig32 ⟨true, StorageError.NONE, emptyPrefs⟩ otherCfg).1.lastError
        = StorageError.VALIDATION_FAILED ∧
      zeroConfig.checksum = calculateChecksum zeroConfig ∧
      (loadConfig8266 ⟨true, StorageError.NONE, ⟨1, zeroConfig⟩⟩ zeroConfig).2.2 = false ∧
      (loadConfig8266 ⟨true, StorageError.NONE, ⟨1, zeroConfig⟩⟩ zeroConfig).1.lastError
        = StorageError.VALIDATION_FAILED) :=
  ⟨⟨by decide, by decide, by decide⟩,
    C6_erased_rejected ⟨true, StorageError.NONE, ⟨0, zeroConfig⟩⟩ otherCfg
      ⟨true, StorageError.NONE, emptyPrefs⟩ otherCfg rfl rfl rfl rfl⟩

theorem takeWhile_append_zero (l₁ l₂ : List Nat) (h : ∀ x ∈ l₁, x ≠ 0) :
    (l₁ ++ 0 :: l₂).takeWhile (· ≠ 0) = l₁ := by
  induction l₁ with
  | nil => simp
  | cons a t ih =>
    have ha : a ≠ 0 := h a (List.mem_cons_self a t)
    have iht := ih (fun x hx => h x (List.mem_cons_of_mem a hx))
    rw [List.cons_append, List.takeWhile_cons, if_pos (by simpa using ha), iht]

theorem cstrLen_strlcpy20 (dst src : List Nat) :
    cstrLen (strlcpy20 dst src) = min (cstrLen src) 19 := by
  unfold strlcpy20 cstrLen cstr
  dsimp only
  rw [List.append_assoc, List.singleton_append, takeWhile_append_zero]
  · simp only [List.length_take]
    omega
  · intro x hx
    have hx1 : x ∈ (src.takeWhile (· ≠ 0)) := List.take_subset _ _ hx
    have hx2 := List.mem_takeWhile_imp hx1
    simpa using hx2

theorem cstr_eq_self_of_no_zero (l : List Nat) (h : (0 : Nat) ∉ l) : cstr l = l := by
  unfold cstr
  induction l with
  | nil => rfl
  | cons a t ih =>
    have ha : a ≠ 0 := fun he => h (he ▸ List.mem_cons_self a t)
    have iht := ih (fun hm => h (List.mem_cons_of_mem a hm))
    rw [List.takeWhile_cons, if_pos (by simpa using ha), iht]

theorem loadConfig32_name (s32 : S32) (cfg0 : Config) :
    (loadConfig32 s32 cfg0).2.2 = true →
    (loadConfig32 s32 cfg0).2.1.name = strlcpy20 cfg0.name (s32.prefs.strs "name") := by
  unfold loadConfig32
  split
  · intro hcon; simp at hcon
  · dsimp only
    split
    · intro hcon; simp at hcon
    · split
      · intro hcon; simp at hcon
      · split
        · intro hcon; simp at hcon
        · intro _; rfl

theorem loadConfig32_name_len (s32 : S32) (cfg0 : Config) :
    (loadConfig32 s32 cfg0).2.2 = true → (s32.prefs.strs "name").length ≠ 0 := by
  unfold loadConfig32
  split
  · intro hcon; simp at hcon
  · dsimp only
    split
    · intro hcon; simp at hcon
    · rename_i hn
      intro _
      exact hn

/-- Claim C7 (counterexample): on the block-storage backend, a stored record
with an empty name, non-empty WiFi fields and a matching checksum loads
successfully — loadConfig performs no name check there, so the claim fails
for that backend. -/
theorem C7_counterexample :
    (loadConfig8266 noName8 otherCfg).2.2 = true ∧
    cstrLen (loadConfig8266 noName8 otherCfg).2.1.name = 0 := by
  decide

/-- Claim C7 (amended): on the key-value backend only, whenever loadConfig
returns true the name field of the returned record is a non-empty string
(given the Preferences invariant that stored strings contain no NUL byte);
the block-storage backend does not check the name. -/
theorem C7_name_nonempty_kv (s32 : S32) (cfg0 : Config)
    (hz : (0 : Nat) ∉ s32.prefs.strs "name")
    (hsucc : (loadConfig32 s32 cfg0).2.2 = true) :
    cstrLen (loadConfig32 s32 cfg0).2.1.name ≠ 0 := by
  rw [loadConfig32_name s32 cfg0 hsucc, cstrLen_strlcpy20]
  have hlen := loadConfig32_name_len s32 cfg0 hsucc
  have hcs : cstr (s32.prefs.strs "name") = s32.prefs.strs "name" :=
    cstr_eq_self_of_no_zero _ hz
  unfold cstrLen
  rw [hcs]
  omega

/-- Claim C7 (witness): the amended theorem applied to the key-value store
holding the saved scenario record. -/
theorem C7_witness :
    ((0 : Nat) ∉ saved32.prefs.strs "name" ∧
      (loadConfig32 saved32 zeroConfig).2.2 = true) ∧
    cstrLen (loadConfig32 saved32 zeroConfig).2.1.name ≠ 0 :=
  ⟨⟨by decide, by decide⟩,
    C7_name_nonempty_kv saved32 zeroConfig (by decide) (by decide)⟩

/-- Claim C8 (confirmed): on the block-storage backend, saveConfig reports
success only if the post-commit read-back yields marker 1, the written
checksum and the four written strings (`readbackOk`); whenever the commit
yields a state failing that comparison, saveConfig returns false with the
non-None error WRITE_FAILED; a failed commit yields COMMIT_FAILED. -/
theorem C8_readback_verified (s : S8) (cfg : Config) (commit : CommitOracle)
    (h : s.initialized = true) :
    ((saveConfig8266 s cfg commit).2 = true →
      ∃ ee', commit ⟨1, ⟨cfg.location, cfg.name, cfg.wifi_ssid, cfg.wifi_pwd,
          calculateChecksum cfg⟩⟩ = some ee' ∧
        readbackOk cfg ee' = true ∧
        (saveConfig8266 s cfg commit).1.ee = ee' ∧
        ee'.marker = 1 ∧ ee'.conf.checksum = calculateChecksum cfg ∧
        strcmpEq cfg.name ee'.conf.name = true ∧
        strcmpEq cfg.location ee'.conf.location = true ∧
        strcmpEq cfg.wifi_ssid ee'.conf.wifi_ssid = true ∧
        strcmpEq cfg.wifi_pwd ee'.conf.wifi_pwd = true) ∧
    (∀ ee', commit ⟨1, ⟨cfg.location, cfg.name, cfg.wifi_ssid, cfg.wifi_pwd,
          calculateChecksum cfg⟩⟩ = some ee' →
      readbackOk cfg ee' = false →
      (saveConfig8266 s cfg commit).2 = false ∧
        getLastError8266 (saveConfig8266 s cfg commit).1 = StorageError.WRITE_FAILED) ∧
    (commit ⟨1, ⟨cfg.location, cfg.name, cfg.wifi_ssid, cfg.wifi_pwd,
          calculateChecksum cfg⟩⟩ = none →
      (saveConfig8266 s cfg commit).2 = false ∧
        getLastError8266 (saveConfig8266 s cfg commit).1
          = StorageError.COMMIT_FAILED) := by
  unfold saveConfig8266 getLastError8266
  rw [if_neg (by simp [h])]
  dsimp only
  rcases hc : commit ⟨1, ⟨cfg.location, cfg.name, cfg.wifi_ssid, cfg.wifi_pwd,
      calculateChecksum cfg⟩⟩ with _ | ee'
  · dsimp only
    refine ⟨?_, ?_, ?_⟩
    · intro hcon; simp at hcon
    · intro ee'' hce; simp at hce
    · intro _; exact ⟨rfl, rfl⟩
  · dsimp only
    by_cases hok : readbackOk cfg ee' = true
    · rw [if_pos hok]
      have hparts := hok
      simp only [readbackOk, Bool.and_eq_true, beq_iff_eq] at hparts
      obtain ⟨⟨⟨⟨⟨h1, h2⟩, h3⟩, h4⟩, h5⟩, h6⟩ := hparts
      refine ⟨?_, ?_, ?_⟩
      · intro _
        exact ⟨ee', rfl, hok, rfl, h1, h2, h3, h4, h5, h6⟩
      · intro ee'' hce hbad
        injection hce with he
        subst he
        rw [hok] at hbad
        simp at hbad
      · intro hce; simp at hce
    · rw [if_neg hok]
      refine ⟨?_, ?_, ?_⟩
      · intro hcon; simp at hcon
      · intro ee'' hce _
        injection hce with he
        subst he
        exact ⟨rfl, rfl⟩
      · intro hce; simp at hce

/-- Claim C8 (witness): the theorem applied to an initialized store, the
scenario record and the fault-free commit. -/
theorem C8_witness :
    ((⟨true, StorageError.NONE, ⟨0, zeroConfig⟩⟩ : S8).initialized = true) ∧
    (((saveConfig8266 ⟨true, StorageError.NONE, ⟨0, zeroConfig⟩⟩ sensorCfg
          idealCommit).2 = true →
      ∃ ee', idealCommit ⟨1, ⟨sensorCfg.location, sensorCfg.name, sensorCfg.wifi_ssid,
          sensorCfg.wifi_pwd, calculateChecksum sensorCfg⟩⟩ = some ee' ∧
        readbackOk sensorCfg ee' = true ∧
        (saveConfig8266 ⟨true, StorageError.NONE, ⟨0, zeroConfig⟩⟩ sensorCfg
          idealCommit).1.ee = ee' ∧
        ee'.marker = 1 ∧ ee'.conf.checksum = calculateChecksum sensorCfg ∧
        strcmpEq sensorCfg.name ee'.conf.name = true ∧
        strcmpEq sensorCfg.location ee'.conf.location = true ∧
        strcmpEq sensorCfg.wifi_ssid ee'.conf.wifi_ssid = true ∧
        strcmpEq sensorCfg.wifi_pwd ee'.conf.wifi_pwd = true) ∧
    (∀ ee', idealCommit ⟨1, ⟨sensorCfg.location, sensorCfg.name, sensorCfg.wifi_ssid,
          sensorCfg.wifi_pwd, calculateChecksum sensorCfg⟩⟩ = some ee' →
      readbackOk sensorCfg ee' = false →
      (saveConfig8266 ⟨true, StorageError.NONE, ⟨0, zeroConfig⟩⟩ sensorCfg
          idealCommit).2 = false ∧
        getLastError8266 (saveConfig8266 ⟨true, StorageError.NONE, ⟨0, zeroConfig⟩⟩
          sensorCfg idealCommit).1 = StorageError.WRITE_FAILED) ∧
    (idealCommit ⟨1, ⟨sensorCfg.location, sensorCfg.name, sensorCfg.wifi_ssid,
          sensorCfg.wifi_pwd, calculateChecksum sensorCfg⟩⟩ = none →
      (saveConfig8266 ⟨true, StorageError.NONE, ⟨0, zeroConfig⟩⟩ sensorCfg
          idealCommit).2 = false ∧
        getLastError8266 (saveConfig8266 ⟨true, StorageError.NONE, ⟨0, zeroConfig⟩⟩
          sensorCfg idealCommit).1 = StorageError.COMMIT_FAILED)) :=
  ⟨rfl, C8_readback_verified ⟨true, StorageError.NONE, ⟨0, zeroConfig⟩⟩ sensorCfg
    idealCommit rfl⟩

/-- Claim C9 (confirmed): every operation other than begin, called while
`initialized` is false, returns false with lastError NotInitialized and
leaves the persisted state (and the out-parameter) untouched, on both
backends. -/
theorem C9_not_initialized (s : S8) (s32 : S32) (cfg cfg32 : Config)
    (field f32 : String) (value v32 : List Nat) (commit : CommitOracle)
    (commitOk : Bool) (h : s.initialized = false) (h32 : s32.initialized = false) :
    saveConfig8266 s cfg commit = (⟨false, StorageError.NOT_INITIALIZED, s.ee⟩, false) ∧
    loadConfig8266 s cfg = (⟨false, StorageError.NOT_INITIALIZED, s.ee⟩, cfg, false) ∧
    updateField8266 s field value commit
      = (⟨false, StorageError.NOT_INITIALIZED, s.ee⟩, false) ∧
    clear8266 s commitOk = (⟨false, StorageError.NOT_INITIALIZED, s.ee⟩, false) ∧
    saveConfig32 s32 cfg32 = (⟨false, StorageError.NOT_INITIALIZED, s32.prefs⟩, false) ∧
    loadConfig32 s32 cfg32
      = (⟨false, StorageError.NOT_INITIALIZED, s32.prefs⟩, cfg32, false) ∧
    updateField32 s32 f32 v32
      = (⟨false, StorageError.NOT_INITIALIZED, s32.prefs⟩, false) ∧
    clear32 s32 = (⟨false, StorageError.NOT_INITIALIZED, s32.prefs⟩, false) := by
  refine ⟨?_, ?_, ?_, ?_, ?_, ?_, ?_, ?_⟩ <;>
    simp [saveConfig8266, loadConfig8266, updateField8266, clear8266,
      saveConfig32, loadConfig32, updateField32, clear32, h, h32]

/-- Claim C9 (witness): the theorem applied to freshly powered-on devices
(never begun) and concrete arguments. -/
theorem C9_witness :
    (boot8.initialized = false ∧ boot32.initialized = false) ∧
    (saveConfig8266 boot8 sensorCfg idealCommit
        = (⟨false, StorageError.NOT_INITIALIZED, boot8.ee⟩, false) ∧
      loadConfig8266 boot8 sensorCfg
        = (⟨false, StorageError.NOT_INITIALIZED, boot8.ee⟩, sensorCfg, false) ∧
      updateField8266 boot8 "name" (strToCStr "n") idealCommit
        = (⟨false, StorageError.NOT_INITIALIZED, boot8.ee⟩, false) ∧
      clear8266 boot8 true = (⟨false, StorageError.NOT_INITIALIZED, boot8.ee⟩, false) ∧
      saveConfig32 boot32 sensorCfg
        = (⟨false, StorageError.NOT_INITIALIZED, boot32.prefs⟩, false) ∧
      loadConfig32 boot32 sensorCfg
        = (⟨false, StorageError.NOT_INITIALIZED, boot32.prefs⟩, sensorCfg, false) ∧
      updateField32 boot32 "name" (strToCStr "n")
        = (⟨false, StorageError.NOT_INITIALIZED, boot32.prefs⟩, false) ∧
      clear32 boot32 = (⟨false, StorageError.NOT_INITIALIZED, boot32.prefs⟩, false)) :=
  ⟨⟨rfl, rfl⟩,
    C9_not_initialized boot8 boot32 sensorCfg sensorCfg "name" "name"
      (strToCStr "n") (strToCStr "n") idealCommit true rfl rfl⟩

/-- Claim C10 (confirmed): on the block-storage backend, `begin` always
returns true and leaves the store initialized — the failure branch that
would set NotInitialized is unreachable, since `initialized` is assigned
true unconditionally after the backend open call. -/
theorem C10_begin8266_always_true (s : S8) :
    (begin8266 s).2 = true ∧ (begin8266 s).1.initialized = true := by
  unfold begin8266
  split
  · rename_i hini
    exact ⟨rfl, hini⟩
  · exact ⟨rfl, rfl⟩

end EthoSensor
